import Mathlib

/-
Verification of the retirement-calculator engine (retirement_calculator.py).

The five engine methods of the RetirementCalculator class are embedded as
pure Lean functions over exact rationals (the Python floats are modelled
with the real-number semantics the design document assumes, realised as ℚ).
Python code that can raise a ZeroDivisionError is embedded as a function
returning an Option, with none standing for the raised error.
-/

/-- The fixed enumerated set of expense categories used as the keys of every
cost-of-living profile dictionary. -/
inductive Category where
  | rent
  | groceries
  | utilities
  | transportation
  | healthcare
  | entertainment
  | education_child
  | miscellaneous
deriving DecidableEq

/-- The three cost-of-living tiers of the self.city_costs table. -/
inductive Tier where
  | tier1
  | tier2
  | tier3
deriving DecidableEq

/-- The self.city_costs reference table: per tier, the baseline monthly amount
of each expense category. -/
def city_costs : Tier → Category → ℚ
  | .tier1, .rent => 45000
  | .tier1, .groceries => 15000
  | .tier1, .utilities => 4500
  | .tier1, .transportation => 8000
  | .tier1, .healthcare => 4000
  | .tier1, .entertainment => 8000
  | .tier1, .education_child => 20000
  | .tier1, .miscellaneous => 6000
  | .tier2, .rent => 28000
  | .tier2, .groceries => 10000
  | .tier2, .utilities => 3000
  | .tier2, .transportation => 5000
  | .tier2, .healthcare => 2500
  | .tier2, .entertainment => 5000
  | .tier2, .education_child => 12000
  | .tier2, .miscellaneous => 4000
  | .tier3, .rent => 18000
  | .tier3, .groceries => 7000
  | .tier3, .utilities => 2500
  | .tier3, .transportation => 3000
  | .tier3, .healthcare => 2000
  | .tier3, .entertainment => 3000
  | .tier3, .education_child => 8000
  | .tier3, .miscellaneous => 3000

/-- Decides whether a string key of the custom_expenses dictionary is one of
the eight keys present in a baseline profile (the Python membership test
category in base_costs). -/
def categoryOfString (s : String) : Option Category :=
  if s = "rent" then some .rent
  else if s = "groceries" then some .groceries
  else if s = "utilities" then some .utilities
  else if s = "transportation" then some .transportation
  else if s = "healthcare" then some .healthcare
  else if s = "entertainment" then some .entertainment
  else if s = "education_child" then some .education_child
  else if s = "miscellaneous" then some .miscellaneous
  else none

/-- The override loop of calculate_monthly_expenses: for each (category, amount)
entry of custom_expenses, if the key is a known profile category the entry
replaces that category amount, otherwise the entry is skipped. -/
def applyCustom (base : Category → ℚ) (custom : List (String × ℚ)) : Category → ℚ :=
  custom.foldl
    (fun acc entry =>
      match categoryOfString entry.1 with
      | some cat => fun c => if c = cat then entry.2 else acc c
      | none => acc)
    base

/-- The Python sum(base_costs.values()) over the eight fixed dictionary keys. -/
def sumValues (f : Category → ℚ) : ℚ :=
  f .rent + f .groceries + f .utilities + f .transportation + f .healthcare +
    f .entertainment + f .education_child + f .miscellaneous

/-- The triple returned by calculate_monthly_expenses:
(total_monthly, base_costs, parental_emergency). -/
structure MonthlyExpenseResult where
  total : ℚ
  breakdown : Category → ℚ
  parental_emergency : ℚ

/-- RetirementCalculator.calculate_monthly_expenses. -/
def calculate_monthly_expenses (city_tier : Tier) (family_size children_count : ℕ)
    (own_house : Bool) (custom_expenses : List (String × ℚ))
    (emi parental_cost parental_emergency : ℚ) : MonthlyExpenseResult :=
  let base0 := city_costs city_tier
  let base1 := if own_house then fun c => if c = Category.rent then 0 else base0 c else base0
  let base2 := applyCustom base1 custom_expenses
  let base3 :=
    if 3 < family_size then
      let multiplier : ℚ := (family_size : ℚ) / 3
      fun c =>
        if c = Category.groceries then base2 c * multiplier
        else if c = Category.utilities then base2 c * (multiplier * 0.8)
        else if c = Category.miscellaneous then base2 c * (multiplier * 0.9)
        else base2 c
    else base2
  let base4 := fun c =>
    if c = Category.education_child then base3 c * (children_count : ℚ) else base3 c
  { total := sumValues base4 + emi + parental_cost
    breakdown := base4
    parental_emergency := parental_emergency }

/-- The record returned by project_future_expenses. -/
structure ProjectedExpense where
  general : ℚ
  healthcare : ℚ
  education : ℚ
  total : ℚ

/-- RetirementCalculator.project_future_expenses. -/
def project_future_expenses (current_monthly : ℚ) (years_to_retirement : ℕ)
    (general_inflation healthcare_inflation education_inflation : ℚ) : ProjectedExpense :=
  let general_mult := (1 + general_inflation) ^ years_to_retirement
  let healthcare_mult := (1 + healthcare_inflation) ^ years_to_retirement
  let education_mult := (1 + education_inflation) ^ years_to_retirement
  let general_expenses := current_monthly * 0.7 * general_mult
  let healthcare_expenses := current_monthly * 0.15 * healthcare_mult
  let education_expenses := current_monthly * 0.15 * education_mult
  { general := general_expenses
    healthcare := healthcare_expenses
    education := education_expenses
    total := general_expenses + healthcare_expenses + education_expenses }

/-- RetirementCalculator.calculate_corpus_needed; none models the
ZeroDivisionError that the Python division raises at a zero rate. -/
def calculate_corpus_needed (monthly_expenses : ℚ) (withdrawal_rate : ℚ) : Option ℚ :=
  if withdrawal_rate = 0 then none
  else some (monthly_expenses * 12 / withdrawal_rate)

/-- RetirementCalculator.calculate_sip_required; none models the
ZeroDivisionError raised when the annuity denominator is zero. -/
def calculate_sip_required (target_corpus : ℚ) (years_to_retirement : ℤ)
    (expected_return : ℚ) : Option ℚ :=
  if years_to_retirement ≤ 0 then some target_corpus
  else if (1 + expected_return / 12) ^ (years_to_retirement * 12).toNat - 1 = 0 then none
  else
    some (target_corpus * (expected_return / 12) /
      ((1 + expected_return / 12) ^ (years_to_retirement * 12).toNat - 1))

/-- The value produced by calculate_sip_required whenever it does not raise:
the same if-branches with the division taken in ℚ. -/
def sip_value (t : ℚ) (y : ℤ) (r : ℚ) : ℚ :=
  if y ≤ 0 then t
  else t * (r / 12) / ((1 + r / 12) ^ (y * 12).toNat - 1)

/-- The while-loop of calculate_corpus_duration, with fuel = 50 - years the
remaining iterations allowed by the years < 50 bound; corpus and the year
counter are the loop state. -/
def durGo (E w r : ℚ) : ℕ → ℚ → ℕ → ℕ
  | 0, _, years => years
  | fuel + 1, corpus, years =>
    if corpus ≤ 0 then years
    else
      durGo E w r fuel
        (corpus + corpus * r - max (E * 1.07 ^ years) ((corpus + corpus * r) * w))
        (years + 1)

/-- RetirementCalculator.calculate_corpus_duration. -/
def calculate_corpus_duration
    (initial_corpus annual_expenses withdrawal_rate investment_return : ℚ) : ℕ :=
  durGo annual_expenses withdrawal_rate investment_return 50 initial_corpus 0

/-- Modelled from the spec: the loop of the Depletion Simulator contract
yearsUntilDepleted, whose yearly withdrawal uses a caller-supplied expenseGrowthRate
g in place of the hard-coded 1.07 of the source. Used only to compare the
source function against the spec contract. -/
def specDepleteGo (E g w r : ℚ) : ℕ → ℚ → ℕ → ℕ
  | 0, _, years => years
  | fuel + 1, corpus, years =>
    if corpus ≤ 0 then years
    else
      specDepleteGo E g w r fuel
        (corpus + corpus * r - max (E * (1 + g) ^ years) ((corpus + corpus * r) * w))
        (years + 1)

/-- Modelled from the spec: the Depletion Simulator contract
yearsUntilDepleted(startingCorpus, annualExpenseAtYearZero, expenseGrowthRate,
withdrawalRate, annualInvestmentReturn, maxYears). -/
def yearsUntilDepletedSpec (startingCorpus annualExpense g w r : ℚ) (maxYears : ℕ) : ℕ :=
  specDepleteGo annualExpense g w r maxYears startingCorpus 0

lemma durGo_zero (E w r : ℚ) (c : ℚ) (y : ℕ) : durGo E w r 0 c y = y := rfl

lemma durGo_succ (E w r : ℚ) (f : ℕ) (c : ℚ) (y : ℕ) :
    durGo E w r (f + 1) c y =
      if c ≤ 0 then y
      else durGo E w r f (c + c * r - max (E * 1.07 ^ y) ((c + c * r) * w)) (y + 1) := rfl

lemma durGo_nonpos (E w r : ℚ) (f : ℕ) (c : ℚ) (y : ℕ) (hc : c ≤ 0) :
    durGo E w r f c y = y := by
  cases f with
  | zero => rfl
  | succ f => rw [durGo_succ, if_pos hc]

lemma le_durGo (E w r : ℚ) : ∀ (f : ℕ) (c : ℚ) (y : ℕ), y ≤ durGo E w r f c y := by
  intro f
  induction f with
  | zero => intro c y; exact Nat.le_refl y
  | succ f ih =>
    intro c y
    rw [durGo_succ]
    split
    · exact Nat.le_refl y
    · exact Nat.le_trans (Nat.le_succ y) (ih _ _)

lemma durGo_le (E w r : ℚ) : ∀ (f : ℕ) (c : ℚ) (y : ℕ), durGo E w r f c y ≤ y + f := by
  intro f
  induction f with
  | zero => intro c y; exact Nat.le_of_eq (Nat.add_zero y).symm
  | succ f ih =>
    intro c y
    rw [durGo_succ]
    split
    · exact Nat.le_add_right y (f + 1)
    · exact Nat.le_trans (ih _ _) (by omega)

lemma succ_le_durGo (E w r : ℚ) (f y : ℕ) (c : ℚ) (hc : 0 < c) :
    y + 1 ≤ durGo E w r (f + 1) c y := by
  rw [durGo_succ, if_neg (not_le.2 hc)]
  exact le_durGo E w r f _ (y + 1)

lemma durGo_kill (E w r : ℚ) (f y : ℕ) (c : ℚ) (hw : w ≤ 1) (hr : r ≤ -1) (hc : 0 < c) :
    durGo E w r (f + 1) c y = y + 1 := by
  rw [durGo_succ, if_neg (not_le.2 hc)]
  apply durGo_nonpos
  have h1 : c + c * r ≤ 0 := by nlinarith
  have h2 : (c + c * r) * w ≤ max (E * 1.07 ^ y) ((c + c * r) * w) :=
    le_max_right _ _
  nlinarith [mul_nonneg (neg_nonneg.2 h1) (sub_nonneg.2 hw)]

lemma step_mono (w u₁ u₂ A₁ A₂ : ℚ) (hw : w ≤ 1) (hu : u₁ ≤ u₂) (hA : A₂ ≤ A₁) :
    u₁ - max A₁ (u₁ * w) ≤ u₂ - max A₂ (u₂ * w) := by
  have h1 : max A₂ (u₂ * w) ≤ max A₁ (u₁ * w) + (u₂ - u₁) := by
    apply max_le
    · have := le_max_left A₁ (u₁ * w)
      linarith
    · have h2 := le_max_right A₁ (u₁ * w)
      nlinarith [mul_nonneg (sub_nonneg.2 hu) (sub_nonneg.2 hw)]
  linarith

lemma durGo_mono (E₁ E₂ w r₁ r₂ : ℚ) (hw : w ≤ 1) (hr₁ : -1 ≤ r₁) (hr : r₁ ≤ r₂)
    (hE : E₂ ≤ E₁) :
    ∀ (f : ℕ) (c₁ c₂ : ℚ) (y : ℕ), c₁ ≤ c₂ →
      durGo E₁ w r₁ f c₁ y ≤ durGo E₂ w r₂ f c₂ y := by
  intro f
  induction f with
  | zero => intro c₁ c₂ y _; exact Nat.le_refl y
  | succ f ih =>
    intro c₁ c₂ y hc
    rcases le_or_lt c₁ 0 with h0 | h0
    · rw [durGo_nonpos E₁ w r₁ (f + 1) c₁ y h0]
      exact le_durGo E₂ w r₂ (f + 1) c₂ y
    · have hc₂ : 0 < c₂ := lt_of_lt_of_le h0 hc
      rw [durGo_succ, durGo_succ, if_neg (not_le.2 h0), if_neg (not_le.2 hc₂)]
      apply ih
      have hu : c₁ + c₁ * r₁ ≤ c₂ + c₂ * r₂ := by
        nlinarith [mul_nonneg (sub_nonneg.2 hc) (by linarith : (0:ℚ) ≤ 1 + r₁),
          mul_nonneg hc₂.le (sub_nonneg.2 hr)]
      have hA : E₂ * 1.07 ^ y ≤ E₁ * 1.07 ^ y :=
        mul_le_mul_of_nonneg_right hE (pow_nonneg (by norm_num) y)
      exact step_mono w _ _ _ _ hw hu hA

lemma specDepleteGo_succ (E g w r : ℚ) (f : ℕ) (c : ℚ) (y : ℕ) :
    specDepleteGo E g w r (f + 1) c y =
      if c ≤ 0 then y
      else specDepleteGo E g w r f
        (c + c * r - max (E * (1 + g) ^ y) ((c + c * r) * w)) (y + 1) := rfl

lemma durGo_eq_specGo (E w r : ℚ) :
    ∀ (f : ℕ) (c : ℚ) (y : ℕ), durGo E w r f c y = specDepleteGo E (7/100) w r f c y := by
  intro f
  induction f with
  | zero => intro c y; rfl
  | succ f ih =>
    intro c y
    rw [durGo_succ, specDepleteGo_succ]
    have h7 : (1 + 7/100 : ℚ) = 1.07 := by norm_num
    rw [h7]
    split
    · rfl
    · exact ih _ _

lemma durGo_cex_stable : ∀ (f y : ℕ), durGo (-100) 2 (-2) f 1 y = y + f := by
  intro f
  induction f with
  | zero => intro y; rfl
  | succ f ih =>
    intro y
    rw [durGo_succ, if_neg (by norm_num : ¬ (1:ℚ) ≤ 0)]
    have hp : (1:ℚ) ≤ 1.07 ^ y := by
      have := pow_le_pow_left₀ (by norm_num : (0:ℚ) ≤ 1) (by norm_num : (1:ℚ) ≤ 1.07) y
      simpa using this
    have hA : (-100 : ℚ) * 1.07 ^ y ≤ (1 + 1 * (-2)) * 2 := by nlinarith
    rw [max_eq_right hA]
    norm_num
    rw [ih]
    omega

/-- C4: calculate_corpus_duration terminates on every input (it is a total
function of its fuel-bounded loop), its iteration count is capped by the hard
ceiling of 50 and the returned year count never exceeds 50; hitting the cap is
an ordinary return, not an error. -/
theorem corpus_duration_capped (c E w r : ℚ) : calculate_corpus_duration c E w r ≤ 50 := by
  have := durGo_le E w r 50 c 0
  simpa [calculate_corpus_duration] using this

/-- C9: a strictly positive starting corpus always yields at least one
simulated year: the loop body (grow, withdraw, increment) runs once before the
depletion check, so calculate_corpus_duration never returns 0 on positive
corpus. -/
theorem corpus_duration_pos (c E w r : ℚ) (hc : 0 < c) :
    1 ≤ calculate_corpus_duration c E w r :=
  succ_le_durGo E w r 49 0 c hc

theorem corpus_duration_pos_witness :
    (0:ℚ) < 100 ∧ 1 ≤ calculate_corpus_duration 100 50 (1/20) (1/10) :=
  ⟨by norm_num, corpus_duration_pos 100 50 (1/20) (1/10) (by norm_num)⟩

/-- C2 (amended): the source simulator equals the spec Depletion Simulator
instantiated with expenseGrowthRate fixed at 7 percent and maxYears fixed at
50: each year it withdraws the larger of the expense track grown at the
hard-coded 7 percent and the floor corpus * withdrawalRate taken on the
post-growth corpus; the growth rate is not a caller-supplied parameter. -/
theorem corpus_duration_refines_spec (c E w r : ℚ) :
    calculate_corpus_duration c E w r = yearsUntilDepletedSpec c E (7/100) w r 50 :=
  durGo_eq_specGo E w r 50 c 0

/-- C2 counterexample: no caller-supplied expense growth rate exists; for the
caller-supplied value 0 the spec simulator and the source disagree already at
startingCorpus 1000, annualExpense 100, withdrawalRate 0, return 0 (the
source's second-year withdrawal is 107, not 100). -/
theorem corpus_duration_spec_growth_cex :
    calculate_corpus_duration 1000 100 0 0 = 8 ∧
      yearsUntilDepletedSpec 1000 100 0 0 0 50 = 10 := by
  constructor
  · show durGo 100 0 0 50 1000 0 = 8
    norm_num [durGo, max_def]
  · show specDepleteGo 100 0 0 0 50 1000 0 = 10
    norm_num [specDepleteGo, max_def]

/-- C5 (amended): provided the withdrawal rate is at most 1, the simulated
year count is jointly monotone: non-decreasing in the starting corpus and in
the investment return, and non-increasing in the year-zero annual expenses
(the three claimed monotonicities are the instances with the other two
parameters held fixed). -/
theorem corpus_duration_mono (c₁ c₂ E₁ E₂ w r₁ r₂ : ℚ) (hw : w ≤ 1)
    (hc : c₁ ≤ c₂) (hE : E₂ ≤ E₁) (hr : r₁ ≤ r₂) :
    calculate_corpus_duration c₁ E₁ w r₁ ≤ calculate_corpus_duration c₂ E₂ w r₂ := by
  unfold calculate_corpus_duration
  rcases le_or_lt (-1) r₁ with h1 | h1
  · exact durGo_mono E₁ E₂ w r₁ r₂ hw h1 hr hE 50 c₁ c₂ 0 hc
  · rcases le_or_lt c₁ 0 with h0 | h0
    · rw [durGo_nonpos E₁ w r₁ 50 c₁ 0 h0]
      exact Nat.zero_le _
    · have hL : durGo E₁ w r₁ 50 c₁ 0 = 1 := durGo_kill E₁ w r₁ 49 0 c₁ hw h1.le h0
      rw [hL]
      exact succ_le_durGo E₂ w r₂ 49 0 c₂ (lt_of_lt_of_le h0 hc)

theorem corpus_duration_mono_witness :
    ((1:ℚ)/2 ≤ 1 ∧ (100:ℚ) ≤ 200 ∧ (40:ℚ) ≤ 50 ∧ (1:ℚ)/10 ≤ 2/10) ∧
      calculate_corpus_duration 100 50 (1/2) (1/10) ≤
        calculate_corpus_duration 200 40 (1/2) (2/10) :=
  ⟨⟨by norm_num, by norm_num, by norm_num, by norm_num⟩,
    corpus_duration_mono 100 200 50 40 (1/2) (1/10) (2/10)
      (by norm_num) (by norm_num) (by norm_num) (by norm_num)⟩

/-- C5 counterexample: without a restriction on the withdrawal rate the
claimed monotonicity in the starting corpus is false: with annual expenses
-100, withdrawal rate 2 and investment return -2 held fixed, a starting corpus
of 1 survives to the 50-year cap while the larger starting corpus 200 is
depleted after 1 year. -/
theorem corpus_duration_mono_cex :
    (1:ℚ) ≤ 200 ∧ calculate_corpus_duration 1 (-100) 2 (-2) = 50 ∧
      calculate_corpus_duration 200 (-100) 2 (-2) = 1 := by
  refine ⟨by norm_num, ?_, ?_⟩
  · show durGo (-100) 2 (-2) 50 1 0 = 50
    rw [durGo_cex_stable 50 0]
  · show durGo (-100) 2 (-2) 50 200 0 = 1
    norm_num [durGo, max_def]

/-- C1 (amended): a zero expectedAnnualReturn with a positive horizon is not
handled by a limiting-case formula: the annuity denominator (1+0/12)^months - 1
is exactly 0 and the computation fails with a division-by-zero error (none);
no amount, in particular not targetCorpus/months, is returned. -/
theorem sip_zero_return_fails (t : ℚ) (y : ℤ) (hy : 0 < y) :
    calculate_sip_required t y 0 = none := by
  unfold calculate_sip_required
  rw [if_neg (not_le.2 hy), if_pos]
  norm_num

theorem sip_zero_return_fails_witness :
    (0:ℤ) < 10 ∧ calculate_sip_required 1200000 10 0 = none :=
  ⟨by norm_num, sip_zero_return_fails 1200000 10 (by norm_num)⟩

/-- C1 counterexample: at targetCorpus 1200000 and horizon 10 years a zero
expected return does not produce the limiting-form amount
targetCorpus/(horizonYears*12) = 10000: the call produces no value at all. -/
theorem sip_zero_return_cex :
    calculate_sip_required 1200000 10 0 ≠ some (1200000 / (10 * 12)) := by
  norm_num [calculate_sip_required]
  exact fun h => Option.noConfusion h

/-- C3 (amended): a non-positive withdrawal rate is not rejected as a
configuration error: a zero rate fails with a division-by-zero error (none)
rather than a reported configuration check, and a negative rate silently
returns the numeric amount monthlyExpenses*12/rate, which is negative for
positive expenses. -/
theorem corpus_needed_invalid_rate (m w : ℚ) (hw : w < 0) (hm : 0 < m) :
    calculate_corpus_needed m 0 = none ∧
      calculate_corpus_needed m w = some (m * 12 / w) ∧ m * 12 / w < 0 := by
  refine ⟨by simp [calculate_corpus_needed], ?_, ?_⟩
  · rw [calculate_corpus_needed, if_neg (ne_of_lt hw)]
  · exact div_neg_of_pos_of_neg (by positivity) hw

theorem corpus_needed_invalid_rate_witness :
    (-1:ℚ)/20 < 0 ∧ (0:ℚ) < 100000 ∧
      (calculate_corpus_needed 100000 0 = none ∧
        calculate_corpus_needed 100000 (-1/20) = some (100000 * 12 / (-1/20)) ∧
        100000 * 12 / (-1/20 : ℚ) < 0) :=
  ⟨by norm_num, by norm_num,
    corpus_needed_invalid_rate 100000 (-1/20) (by norm_num) (by norm_num)⟩

/-- C3 counterexample: a negative withdrawal rate of -5 percent is not
reported: corpusNeeded silently returns the negative amount -24000000 for a
future monthly total of 100000. -/
theorem corpus_needed_negative_rate_cex :
    calculate_corpus_needed 100000 (-1/20) = some (-24000000) ∧
      (-24000000 : ℚ) < 0 := by
  constructor
  · norm_num [calculate_corpus_needed]
  · norm_num

lemma one_add_div_twelve_pos (r : ℚ) (h : -12 < r) : 0 < 1 + r / 12 := by
  have h1 : (-1:ℚ) < r / 12 := by
    rw [lt_div_iff₀ (by norm_num : (0:ℚ) < 12)]
    linarith
  linarith

lemma sip_eval (t : ℚ) (y : ℤ) (r : ℚ) (hy : 0 < y) (h12 : -12 < r) (h0 : r ≠ 0) :
    calculate_sip_required t y r = some (sip_value t y r) ∧
      sip_value t y r = t / (∑ i ∈ Finset.range (y * 12).toNat, (1 + r / 12) ^ i) := by
  have hn : (y * 12).toNat ≠ 0 := by omega
  have hu : (0:ℚ) < 1 + r / 12 := one_add_div_twelve_pos r h12
  have hS : (0:ℚ) < ∑ i ∈ Finset.range (y * 12).toNat, (1 + r / 12) ^ i :=
    Finset.sum_pos (fun i _ => pow_pos hu i) (Finset.nonempty_range_iff.2 hn)
  have hm : (1 + r / 12 : ℚ) - 1 = r / 12 := by ring
  have hmne : (1 + r / 12 : ℚ) - 1 ≠ 0 := by
    rw [hm]
    exact div_ne_zero h0 (by norm_num)
  have hgeom : (1 + r / 12 : ℚ) ^ (y * 12).toNat - 1 =
      (∑ i ∈ Finset.range (y * 12).toNat, (1 + r / 12) ^ i) * ((1 + r / 12) - 1) :=
    (geom_sum_mul (1 + r / 12) (y * 12).toNat).symm
  have hden : (1 + r / 12 : ℚ) ^ (y * 12).toNat - 1 ≠ 0 := by
    rw [hgeom]
    exact mul_ne_zero hS.ne' hmne
  constructor
  · rw [calculate_sip_required, if_neg (not_le.2 hy), if_neg hden, sip_value,
      if_neg (not_le.2 hy)]
  · rw [sip_value, if_neg (not_le.2 hy), hgeom, hm]
    exact mul_div_mul_right t _ (div_ne_zero h0 (by norm_num))

/-- C6: for a non-negative target corpus and any fixed horizon, the required
monthly contribution is monotonically non-increasing in the expected annual
return across the solver's defined domain (returns above -1200 percent at
which the monthly growth factor stays positive, excluding the return 0 at
which the source raises): both calls return a value and the value at the
larger return is at most the value at the smaller return. -/
theorem sip_required_mono (t : ℚ) (y : ℤ) (r₁ r₂ : ℚ) (ht : 0 ≤ t) (h1 : -12 < r₁)
    (h1z : r₁ ≠ 0) (h2z : r₂ ≠ 0) (h12 : r₁ ≤ r₂) :
    calculate_sip_required t y r₁ = some (sip_value t y r₁) ∧
      calculate_sip_required t y r₂ = some (sip_value t y r₂) ∧
      sip_value t y r₂ ≤ sip_value t y r₁ := by
  rcases le_or_lt y 0 with hy | hy
  · simp [calculate_sip_required, sip_value, if_pos hy]
  · have h2 : -12 < r₂ := lt_of_lt_of_le h1 h12
    obtain ⟨e1, v1⟩ := sip_eval t y r₁ hy h1 h1z
    obtain ⟨e2, v2⟩ := sip_eval t y r₂ hy h2 h2z
    refine ⟨e1, e2, ?_⟩
    rw [v1, v2]
    have hn : (y * 12).toNat ≠ 0 := by omega
    have hu1 : (0:ℚ) < 1 + r₁ / 12 := one_add_div_twelve_pos r₁ h1
    have hS₁ : (0:ℚ) < ∑ i ∈ Finset.range (y * 12).toNat, (1 + r₁ / 12) ^ i :=
      Finset.sum_pos (fun i _ => pow_pos hu1 i) (Finset.nonempty_range_iff.2 hn)
    have hle : (1:ℚ) + r₁ / 12 ≤ 1 + r₂ / 12 := by
      have : r₁ / 12 ≤ r₂ / 12 := by
        apply div_le_div_of_nonneg_right h12 (by norm_num)
      linarith
    have hS : (∑ i ∈ Finset.range (y * 12).toNat, (1 + r₁ / 12) ^ i) ≤
        ∑ i ∈ Finset.range (y * 12).toNat, (1 + r₂ / 12) ^ i :=
      Finset.sum_le_sum fun i _ => pow_le_pow_left₀ hu1.le hle i
    calc t / (∑ i ∈ Finset.range (y * 12).toNat, (1 + r₂ / 12) ^ i)
        = t * (1 / ∑ i ∈ Finset.range (y * 12).toNat, (1 + r₂ / 12) ^ i) :=
          div_eq_mul_one_div t _
      _ ≤ t * (1 / ∑ i ∈ Finset.range (y * 12).toNat, (1 + r₁ / 12) ^ i) :=
          mul_le_mul_of_nonneg_left (one_div_le_one_div_of_le hS₁ hS) ht
      _ = t / (∑ i ∈ Finset.range (y * 12).toNat, (1 + r₁ / 12) ^ i) :=
          (div_eq_mul_one_div t _).symm

theorem sip_required_mono_witness :
    (0:ℚ) ≤ 1000000 ∧ (-12:ℚ) < 2/25 ∧ (2/25:ℚ) ≠ 0 ∧ (3/25:ℚ) ≠ 0 ∧
      (2/25:ℚ) ≤ 3/25 ∧
      (calculate_sip_required 1000000 10 (2/25) = some (sip_value 1000000 10 (2/25)) ∧
        calculate_sip_required 1000000 10 (3/25) = some (sip_value 1000000 10 (3/25)) ∧
        sip_value 1000000 10 (3/25) ≤ sip_value 1000000 10 (2/25)) :=
  ⟨by norm_num, by norm_num, by norm_num, by norm_num, by norm_num,
    sip_required_mono 1000000 10 (2/25) (3/25) (by norm_num) (by norm_num)
      (by norm_num) (by norm_num) (by norm_num)⟩

/-- C7: projectExpenses returns exactly the three buckets 0.7/0.15/0.15 of the
input total, each grown by its own rate over the horizon, together with their
sum; at horizon 0 the multipliers are 1, the split is the unscaled 70/15/15
partition and the bucket sum equals the input total. -/
theorem project_expenses_formula (t : ℚ) (y : ℕ) (gr hr er : ℚ) :
    (project_future_expenses t y gr hr er).general = 0.7 * t * (1 + gr) ^ y ∧
      (project_future_expenses t y gr hr er).healthcare = 0.15 * t * (1 + hr) ^ y ∧
      (project_future_expenses t y gr hr er).education = 0.15 * t * (1 + er) ^ y ∧
      (project_future_expenses t y gr hr er).total =
        (project_future_expenses t y gr hr er).general +
          (project_future_expenses t y gr hr er).healthcare +
          (project_future_expenses t y gr hr er).education ∧
      (project_future_expenses t 0 gr hr er).general = 0.7 * t ∧
      (project_future_expenses t 0 gr hr er).healthcare = 0.15 * t ∧
      (project_future_expenses t 0 gr hr er).education = 0.15 * t ∧
      (project_future_expenses t 0 gr hr er).general +
          (project_future_expenses t 0 gr hr er).healthcare +
          (project_future_expenses t 0 gr hr er).education = t ∧
      (project_future_expenses t 0 gr hr er).total = t := by
  refine ⟨?_, ?_, ?_, rfl, ?_, ?_, ?_, ?_, ?_⟩
  · show t * 0.7 * ((1 + gr) ^ y) = 0.7 * t * (1 + gr) ^ y
    ring
  · show t * 0.15 * ((1 + hr) ^ y) = 0.15 * t * (1 + hr) ^ y
    ring
  · show t * 0.15 * ((1 + er) ^ y) = 0.15 * t * (1 + er) ^ y
    ring
  · show t * 0.7 * ((1 + gr) ^ 0) = 0.7 * t
    ring
  · show t * 0.15 * ((1 + hr) ^ 0) = 0.15 * t
    ring
  · show t * 0.15 * ((1 + er) ^ 0) = 0.15 * t
    ring
  · show t * 0.7 * ((1 + gr) ^ 0) + t * 0.15 * ((1 + hr) ^ 0) + t * 0.15 * ((1 + er) ^ 0) = t
    ring
  · show t * 0.7 * ((1 + gr) ^ 0) + t * 0.15 * ((1 + hr) ^ 0) + t * 0.15 * ((1 + er) ^ 0) = t
    ring

/-- C8: for every tier and household input the returned aggregate total equals
the sum of the returned per-category breakdown plus the debt-service (emi) and
dependent-care (parental) monthly amounts, and the breakdown itself is
independent of those two add-ons (they appear only in the total). -/
theorem monthly_expenses_total_inv (tier : Tier) (fs cc : ℕ) (own : Bool)
    (cust : List (String × ℚ)) (emi pc pe : ℚ) :
    (calculate_monthly_expenses tier fs cc own cust emi pc pe).total =
      sumValues (calculate_monthly_expenses tier fs cc own cust emi pc pe).breakdown
        + emi + pc ∧
      (calculate_monthly_expenses tier fs cc own cust emi pc pe).breakdown =
        (calculate_monthly_expenses tier fs cc own cust 0 0 pe).breakdown :=
  ⟨rfl, rfl⟩

/-- C10: custom-expense entries whose key is not one of the eight baseline
categories are silently ignored (the whole result, breakdown and total, is as
if the entry were absent), while an entry with a known category key replaces
that category's amount verbatim. -/
theorem custom_expense_keys :
    (∀ (tier : Tier) (fs cc : ℕ) (own : Bool) (l₁ l₂ : List (String × ℚ)) (k : String)
        (v emi pc pe : ℚ), categoryOfString k = none →
      calculate_monthly_expenses tier fs cc own (l₁ ++ (k, v) :: l₂) emi pc pe =
        calculate_monthly_expenses tier fs cc own (l₁ ++ l₂) emi pc pe) ∧
      (∀ (base : Category → ℚ) (l : List (String × ℚ)) (k : String) (v : ℚ)
          (cat : Category), categoryOfString k = some cat →
        applyCustom base (l ++ [(k, v)]) cat = v) := by
  constructor
  · intro tier fs cc own l₁ l₂ k v emi pc pe hk
    have h : ∀ base : Category → ℚ,
        applyCustom base (l₁ ++ (k, v) :: l₂) = applyCustom base (l₁ ++ l₂) := by
      intro base
      simp [applyCustom, List.foldl_append, hk]
    simp only [calculate_monthly_expenses, h]
  · intro base l k v cat hk
    simp [applyCustom, List.foldl_append, hk]

theorem custom_expense_keys_witness :
    categoryOfString "gym" = none ∧
      calculate_monthly_expenses Tier.tier2 3 1 false [("gym", 999)] 0 0 0 =
        calculate_monthly_expenses Tier.tier2 3 1 false [] 0 0 0 ∧
      categoryOfString "rent" = some Category.rent ∧
      applyCustom (city_costs Tier.tier2) [("rent", 123)] Category.rent = 123 :=
  ⟨by simp [categoryOfString], 
    custom_expense_keys.1 Tier.tier2 3 1 false [] [] "gym" 999 0 0 0
      (by simp [categoryOfString]),
    by simp [categoryOfString],
    custom_expense_keys.2 (city_costs Tier.tier2) [] "rent" 123 Category.rent
      (by simp [categoryOfString])⟩
